import Mathlib

/-!
AutoGolfCart ECU: brake node and default task

A shallow embedding of `Core/Src/nodes/braking/brake_node.c` and of the node
bootstrap and main loop of `Core/Src/freertos.c`.

Modelling conventions

* The C `float` payloads (`std_msgs__msg__Float32.data`, the `float` arguments of
  `brake_motor_control`) are finite values and are represented by rationals.  A NaN
  payload is not represented; in the C code it fails the test `msg->data > 0` and so
  takes the same branch as a non-positive value.
* An ADC reading is a `uint32_t`.  Where the C code returns it as a `float`, the value is
  rounded to 24 significant bits, to nearest with ties to even (`uint32_to_float`); a
  reading below `2 ^ 24` is kept as it is.
* A GPIO output pin is a `GPIO_PinState`; the two PWM compare registers of the brake
  timer are natural numbers.
* The headers are not part of the sources at hand.  What they supply is taken as a
  parameter (`BrakeConfig`): whether `BRAKE_INVERTED` is defined, the value of
  `BRAKE_PEDAL_THRESHOLD`, and the conversion applied by the HAL's
  `__HAL_TIM_SET_COMPARE` when a `float` duty is stored in a compare register.
* Every `rclc_publish` call is recorded in a log together with the answer of the bus
  (accepted or rejected).  The answer is supplied by an arbitrary oracle.
-/

namespace ECU

/-! ## Hardware state -/

/-- Level of a digital output pin (`GPIO_PinState` of the HAL). -/
inductive GPIO_PinState where
  | GPIO_PIN_RESET
  | GPIO_PIN_SET
  deriving DecidableEq, Repr

open GPIO_PinState

/-- The three output pins driven by the brake node. -/
inductive BrakePin where
  | Brake_L_EN_Pin
  | Brake_R_EN_Pin
  | Brake_Detect_LED_Pin
  deriving DecidableEq, Repr

/-- The two PWM channels of `BRAKE_ACTUATOR_MOTOR_CONTROLLER_TIMER`. -/
inductive BrakeChannel where
  | BRAKE_ACTUATOR_MOTOR_CONTROLLER_L
  | BRAKE_ACTUATOR_MOTOR_CONTROLLER_R
  deriving DecidableEq, Repr

/-- Output pins and PWM compare registers touched by the brake node. -/
structure Hardware where
  Brake_L_EN : GPIO_PinState
  Brake_R_EN : GPIO_PinState
  Brake_Detect_LED : GPIO_PinState
  CCR_L : ℕ
  CCR_R : ℕ
  deriving DecidableEq, Repr

/-! ## Message bus -/

/-- Topics on which the brake node publishes. -/
inductive Topic where
  | BRAKE_PEDAL_PRESSED_TOPIC
  | BRAKE_PEDAL_POSITION_TOPIC
  | BRAKE_ACTUATOR_ACTIVE_TOPIC
  | BRAKE_ACTUATOR_POSITION_TOPIC
  deriving DecidableEq, Repr

/-- Payload of a published message: `std_msgs/Bool` or `std_msgs/Float32`. -/
inductive Payload where
  | bool (data : Bool)
  | float32 (data : ℚ)
  deriving DecidableEq, Repr

/-- One `rclc_publish` call: publisher topic, message, and whether the bus took it. -/
structure PublishCall where
  topic : Topic
  msg : Payload
  accepted : Bool
  deriving DecidableEq, Repr

/-- The bus decides, per call, whether a publish is accepted.  It may depend on how many
publishes were issued before and on the message itself. -/
abbrev Bus := ℕ → Topic → Payload → Bool

/-- State seen by the brake node: its hardware outputs and the log of publish calls,
oldest first. -/
structure BrakeState where
  hw : Hardware
  published : List PublishCall
  deriving DecidableEq, Repr

/-- What the headers supply at compile time. -/
structure BrakeConfig where
  /-- Whether the preprocessor symbol `BRAKE_INVERTED` is defined. -/
  BRAKE_INVERTED : Bool
  /-- Value of the constant `BRAKE_PEDAL_THRESHOLD`. -/
  BRAKE_PEDAL_THRESHOLD : ℚ
  /-- Conversion of a `float` duty into the compare register by
  `__HAL_TIM_SET_COMPARE`. -/
  toCompare : ℚ → ℕ

/-! ## HAL and bus primitives -/

/-- `HAL_GPIO_WritePin`. -/
def HAL_GPIO_WritePin (pin : BrakePin) (level : GPIO_PinState) (s : BrakeState) :
    BrakeState :=
  match pin with
  | .Brake_L_EN_Pin => { s with hw := { s.hw with Brake_L_EN := level } }
  | .Brake_R_EN_Pin => { s with hw := { s.hw with Brake_R_EN := level } }
  | .Brake_Detect_LED_Pin => { s with hw := { s.hw with Brake_Detect_LED := level } }

/-- `HAL_GPIO_ReadPin`. -/
def HAL_GPIO_ReadPin (pin : BrakePin) (s : BrakeState) : GPIO_PinState :=
  match pin with
  | .Brake_L_EN_Pin => s.hw.Brake_L_EN
  | .Brake_R_EN_Pin => s.hw.Brake_R_EN
  | .Brake_Detect_LED_Pin => s.hw.Brake_Detect_LED

/-- `__HAL_TIM_SET_COMPARE` on the brake timer. -/
def __HAL_TIM_SET_COMPARE (cfg : BrakeConfig) (ch : BrakeChannel) (compare : ℚ)
    (s : BrakeState) : BrakeState :=
  match ch with
  | .BRAKE_ACTUATOR_MOTOR_CONTROLLER_L =>
      { s with hw := { s.hw with CCR_L := cfg.toCompare compare } }
  | .BRAKE_ACTUATOR_MOTOR_CONTROLLER_R =>
      { s with hw := { s.hw with CCR_R := cfg.toCompare compare } }

/-- `rclc_publish`: the call is logged with the answer of the bus.  The callers below
discard the returned status, as the C code does. -/
def rclc_publish (bus : Bus) (topic : Topic) (msg : Payload) (s : BrakeState) :
    BrakeState × Bool :=
  let ok := bus s.published.length topic msg
  ({ s with published := s.published ++ [⟨topic, msg, ok⟩] }, ok)

/-! ## brake_node.c -/

/-- `send_brake_actuator_active_message` (called as `send_brake_actuator_active` in
`brake_motor_control`). -/
def send_brake_actuator_active_message (bus : Bus) (state : Bool) (s : BrakeState) :
    BrakeState :=
  (rclc_publish bus .BRAKE_ACTUATOR_ACTIVE_TOPIC (.bool state) s).1

/-- `brake_motor_control`. -/
def brake_motor_control (cfg : BrakeConfig) (bus : Bus) (left_pwm : ℚ) (left_enable : Bool)
    (right_pwm : ℚ) (right_enable : Bool) (s : BrakeState) : BrakeState :=
  -- Set the left motor
  let s1 :=
    if left_enable then
      let a := __HAL_TIM_SET_COMPARE cfg .BRAKE_ACTUATOR_MOTOR_CONTROLLER_L left_pwm s
      let b := HAL_GPIO_WritePin .Brake_L_EN_Pin GPIO_PIN_SET a
      if cfg.BRAKE_INVERTED then send_brake_actuator_active_message bus true b
      else send_brake_actuator_active_message bus false b
    else
      HAL_GPIO_WritePin .Brake_L_EN_Pin GPIO_PIN_RESET s
  -- Set the right motor
  if right_enable then
    let a := __HAL_TIM_SET_COMPARE cfg .BRAKE_ACTUATOR_MOTOR_CONTROLLER_R right_pwm s1
    let b := HAL_GPIO_WritePin .Brake_R_EN_Pin GPIO_PIN_SET a
    if cfg.BRAKE_INVERTED then send_brake_actuator_active_message bus false b
    else send_brake_actuator_active_message bus true b
  else
    HAL_GPIO_WritePin .Brake_R_EN_Pin GPIO_PIN_RESET s1

/-- `brake_actuator_l_callback`; `msg` is the `data` field of the received message. -/
def brake_actuator_l_callback (cfg : BrakeConfig) (bus : Bus) (msg : ℚ) (s : BrakeState) :
    BrakeState :=
  if msg > 0 then brake_motor_control cfg bus msg true 0 false s
  else brake_motor_control cfg bus 0 false 0 false s

/-- `brake_actuator_r_callback`; `msg` is the `data` field of the received message. -/
def brake_actuator_r_callback (cfg : BrakeConfig) (bus : Bus) (msg : ℚ) (s : BrakeState) :
    BrakeState :=
  if msg > 0 then brake_motor_control cfg bus 0 false msg true s
  else brake_motor_control cfg bus 0 false 0 false s

/-- `emergency_brake_callback`; the received boolean `msg` is not inspected. -/
def emergency_brake_callback (cfg : BrakeConfig) (bus : Bus) (_msg : Bool) (s : BrakeState) :
    BrakeState :=
  if cfg.BRAKE_INVERTED then brake_motor_control cfg bus 255 true 0 false s
  else brake_motor_control cfg bus 0 false 255 true s

/-- `brake_detect_led`. -/
def brake_detect_led (state : Bool) (s : BrakeState) : BrakeState :=
  if state then HAL_GPIO_WritePin .Brake_Detect_LED_Pin GPIO_PIN_SET s
  else HAL_GPIO_WritePin .Brake_Detect_LED_Pin GPIO_PIN_RESET s

/-- Round `n` to a multiple of `2 ^ e`: to the nearest one, and to the even multiple when
`n` lies halfway between two. -/
def roundToEven (n e : ℕ) : ℕ :=
  let q := n / 2 ^ e
  let rem := n % 2 ^ e
  if 2 * rem > 2 ^ e ∨ (2 * rem = 2 ^ e ∧ q % 2 = 1) then (q + 1) * 2 ^ e else q * 2 ^ e

/-- Number of low bits of `n` that do not fit in a 24-bit significand; `fuel` bounds the
answer (8 is enough for a 32-bit value). -/
def excessBits : ℕ → ℕ → ℕ
  | 0, _ => 0
  | fuel + 1, n => if n < 2 ^ 24 then 0 else excessBits fuel (n / 2) + 1

/-- The implicit C conversion of a `uint32_t` to `float` (IEEE single precision, 24-bit
significand, round to nearest, ties to even).  The argument is taken modulo `2 ^ 32`. -/
def uint32_to_float (n : ℕ) : ℚ :=
  ((roundToEven (n % 2 ^ 32) (excessBits 8 (n % 2 ^ 32)) : ℕ) : ℚ)

/-- `read_brake_pedal_position`: `raw` is the value handed back by `HAL_ADC_GetValue` for
the pedal channel, stored in a `uint32_t` and returned as a `float`. -/
def read_brake_pedal_position (raw : ℕ) : ℚ :=
  let brake_pedal_position : ℕ := raw % 2 ^ 32
  uint32_to_float brake_pedal_position

/-- `brake_get_actuator_pos`: `raw` is the value handed back by `HAL_ADC_GetValue` for the
actuator channel, stored in a `uint32_t` and returned as a `float`. -/
def brake_get_actuator_pos (raw : ℕ) : ℚ :=
  let brake_actuator_position : ℕ := raw % 2 ^ 32
  uint32_to_float brake_actuator_position

/-- `brake_is_pressed`: returns the flag together with the state after the LED write.
`raw` is the pedal sample taken by the call. -/
def brake_is_pressed (cfg : BrakeConfig) (raw : ℕ) (s : BrakeState) : Bool × BrakeState :=
  if read_brake_pedal_position raw > cfg.BRAKE_PEDAL_THRESHOLD then
    (true, brake_detect_led true s)
  else
    (false, brake_detect_led false s)

/-- `brake_actuator_is_active`. -/
def brake_actuator_is_active (s : BrakeState) : Bool :=
  HAL_GPIO_ReadPin .Brake_L_EN_Pin s == GPIO_PIN_SET ||
    HAL_GPIO_ReadPin .Brake_R_EN_Pin s == GPIO_PIN_SET

/-- ADC samples obtained during one run of `brake_timer_callback`, in the order in which
the conversions are made: the actuator position, the pedal sample used by
`brake_is_pressed`, and the pedal sample taken afterwards for the position message
(the latter conversion only happens when the pedal was found pressed). -/
structure AdcSamples where
  actuator : ℕ
  pedal_detect : ℕ
  pedal_report : ℕ
  deriving DecidableEq, Repr

/-- `brake_timer_callback`.  The callback names `get_brake_actuator_position`,
`brake_actuator_active` and `get_brake_pedal_position`; they are taken to be
`brake_get_actuator_pos`, `brake_actuator_is_active` and `read_brake_pedal_position`. -/
def brake_timer_callback (cfg : BrakeConfig) (bus : Bus) (adc : AdcSamples) (s : BrakeState) :
    BrakeState :=
  -- Get the brake actuator position
  let brake_act_position_msg : ℚ := brake_get_actuator_pos adc.actuator
  -- Check if the brake actuator is active
  let brake_actuator_active_msg : Bool := brake_actuator_is_active s
  -- Check if the brake pedal is pressed
  let pressed := brake_is_pressed cfg adc.pedal_detect s
  let brake_pedal_pressed_msg : Bool := if pressed.1 then true else false
  let brake_pedal_position_msg : ℚ :=
    if pressed.1 then read_brake_pedal_position adc.pedal_report else 0
  -- Publish the messages
  let s1 := (rclc_publish bus .BRAKE_PEDAL_PRESSED_TOPIC (.bool brake_pedal_pressed_msg)
    pressed.2).1
  let s2 := (rclc_publish bus .BRAKE_PEDAL_POSITION_TOPIC (.float32 brake_pedal_position_msg)
    s1).1
  let s3 := (rclc_publish bus .BRAKE_ACTUATOR_POSITION_TOPIC (.float32 brake_act_position_msg)
    s2).1
  (rclc_publish bus .BRAKE_ACTUATOR_ACTIVE_TOPIC (.bool brake_actuator_active_msg) s3).1

/-! ### Callback sequences -/

/-- One callback invocation of the brake node, with the data it receives. -/
inductive BrakeEvent where
  | emergency (msg : Bool)
  | actuator_l (msg : ℚ)
  | actuator_r (msg : ℚ)
  | timer (adc : AdcSamples)
  deriving DecidableEq, Repr

/-- Run the callback selected by an event. -/
def dispatch (cfg : BrakeConfig) (bus : Bus) (ev : BrakeEvent) (s : BrakeState) : BrakeState :=
  match ev with
  | .emergency msg => emergency_brake_callback cfg bus msg s
  | .actuator_l msg => brake_actuator_l_callback cfg bus msg s
  | .actuator_r msg => brake_actuator_r_callback cfg bus msg s
  | .timer adc => brake_timer_callback cfg bus adc s

/-- Run a finite sequence of callbacks, first event first. -/
def run (cfg : BrakeConfig) (bus : Bus) (evs : List BrakeEvent) (s : BrakeState) : BrakeState :=
  evs.foldl (fun acc ev => dispatch cfg bus ev acc) s

/-- Topic and payload of a logged publish call. -/
def PublishCall.sent (p : PublishCall) : Topic × Payload := (p.topic, p.msg)

/-- Messages handed to `rclc_publish` between state `s` and a later state `t`. -/
def newMessages (s t : BrakeState) : List (Topic × Payload) :=
  (t.published.drop s.published.length).map PublishCall.sent

/-- Power-on state: pins low, compare registers zero, nothing published. -/
def resetState : BrakeState :=
  { hw := { Brake_L_EN := GPIO_PIN_RESET, Brake_R_EN := GPIO_PIN_RESET,
            Brake_Detect_LED := GPIO_PIN_RESET, CCR_L := 0, CCR_R := 0 },
    published := [] }

/-- A concrete compare conversion used in examples: truncation of the `float` to an
unsigned 32-bit integer. -/
def truncateCompare (x : ℚ) : ℕ := (Rat.floor x).toNat % 2 ^ 32

/-- A bus that accepts every message. -/
def busAccept : Bus := fun _ _ _ => true

/-- A bus that rejects every message. -/
def busReject : Bus := fun _ _ _ => false

/-! ## Node bring-up (`brake_node_init`) and the default task (`freertos.c`) -/

/-- Status returned by an rcl or rclc call. -/
inductive rcl_ret_t where
  | RCL_RET_OK
  | RCL_RET_ERROR
  deriving DecidableEq, Repr

/-- The subscriptions of the brake node. -/
inductive Subscription where
  | emergency_brake_sub
  | brake_actuator_l_sub
  | brake_actuator_r_sub
  deriving DecidableEq, Repr

/-- The publishers of the brake node. -/
inductive Publisher where
  | brake_pedal_pressed_pub
  | brake_pedal_position_pub
  | brake_actuator_active_pub
  | brake_act_position_pub
  deriving DecidableEq, Repr

/-- The registration calls issued by `brake_node_init`. -/
inductive Registration where
  | rclc_node_init_default
  | rclc_subscription_init_default (sub : Subscription)
  | rclc_publisher_init_default (pub : Publisher)
  | rclc_timer_init_default
  | rclc_executor_init
  | rclc_executor_add_subscription (sub : Subscription)
  | rclc_executor_add_timer
  deriving DecidableEq, Repr

/-- The middleware answers each registration call with a status. -/
abbrev Middleware := Registration → rcl_ret_t

/-- Perform one registration call: it is appended to the log of calls made so far,
together with the status the middleware returned. -/
def register (rcl : Middleware) (call : Registration)
    (log : List (Registration × rcl_ret_t)) : List (Registration × rcl_ret_t) × rcl_ret_t :=
  (log ++ [(call, rcl call)], rcl call)

/-- `brake_node_init`.  The C function returns `void`; the value computed here is the log
of the registration calls it made.  The status of every call is dropped (`.1`), as in the
C code. -/
def brake_node_init (rcl : Middleware) : List (Registration × rcl_ret_t) :=
  -- Init the node
  let l := (register rcl .rclc_node_init_default []).1
  -- Create subscribers
  let l := (register rcl (.rclc_subscription_init_default .emergency_brake_sub) l).1
  let l := (register rcl (.rclc_subscription_init_default .brake_actuator_l_sub) l).1
  let l := (register rcl (.rclc_subscription_init_default .brake_actuator_r_sub) l).1
  -- Create publishers
  let l := (register rcl (.rclc_publisher_init_default .brake_pedal_pressed_pub) l).1
  let l := (register rcl (.rclc_publisher_init_default .brake_pedal_position_pub) l).1
  let l := (register rcl (.rclc_publisher_init_default .brake_actuator_active_pub) l).1
  let l := (register rcl (.rclc_publisher_init_default .brake_act_position_pub) l).1
  -- Create timers
  let l := (register rcl .rclc_timer_init_default l).1
  -- Initialize executor
  let l := (register rcl .rclc_executor_init l).1
  -- Add subscriptions to executor
  let l := (register rcl (.rclc_executor_add_subscription .emergency_brake_sub) l).1
  let l := (register rcl (.rclc_executor_add_subscription .brake_actuator_l_sub) l).1
  let l := (register rcl (.rclc_executor_add_subscription .brake_actuator_r_sub) l).1
  -- Add timers to executor
  (register rcl .rclc_executor_add_timer l).1

/-- The six nodes handled by the default task. -/
inductive Node where
  | accel_node
  | accessory_node
  | brake_node
  | gyro_node
  | steer_node
  | temp_node
  deriving DecidableEq, Repr

/-- Observable steps of `StartDefaultTask`. -/
inductive TaskEvent where
  /-- The call `rmw_uros_set_custom_transport`. -/
  | set_custom_transport
  /-- The call `rcutils_set_default_allocator`, with its result. -/
  | set_default_allocator (ok : Bool)
  /-- The `printf` issued when the allocator could not be set. -/
  | print_allocator_error
  /-- The call `rclc_support_init`. -/
  | rclc_support_init
  /-- Entry into a node's init function (`init_accel_node()` and so on). -/
  | init_node (n : Node)
  /-- A registration call made inside the brake node's init, with its status. -/
  | registration (call : Registration) (ret : rcl_ret_t)
  /-- The call `rcl_spin_node(&n)`. -/
  | rcl_spin_node (n : Node)
  deriving DecidableEq, Repr

/-- What the task's surroundings answer. -/
structure TaskEnv where
  allocator_ok : Bool
  rcl : Middleware

/-- Setup part of `StartDefaultTask`: everything before the `for(;;)` loop.  The call
`init_brake_node()` is taken to be `brake_node_init`; the init functions of the other five
nodes are not among the sources and appear as a single event each. -/
def bootstrap (env : TaskEnv) : List TaskEvent :=
  [.set_custom_transport, .set_default_allocator env.allocator_ok]
    ++ (if !env.allocator_ok then [.print_allocator_error] else [])
    ++ [.rclc_support_init]
    -- Init all nodes from headers
    ++ [.init_node .accel_node]
    ++ [.init_node .accessory_node]
    ++ ([.init_node .brake_node]
          ++ (brake_node_init env.rcl).map (fun c => TaskEvent.registration c.1 c.2))
    ++ [.init_node .gyro_node]
    ++ [.init_node .steer_node]
    ++ [.init_node .temp_node]

/-- Modelled from the spec: `rcl_spin_node` is not among the sources.  Following the
glossary of the specification ("Spin: one pass of servicing a node's ready timers and
pending subscribed messages"), a call services the node once and returns; it is recorded
as one event. -/
def rcl_spin_node (n : Node) : List TaskEvent := [.rcl_spin_node n]

/-- Body of the `for(;;)` loop of `StartDefaultTask`. -/
def spin_all_nodes : List TaskEvent :=
  rcl_spin_node .accel_node
    ++ rcl_spin_node .accessory_node
    ++ rcl_spin_node .brake_node
    ++ rcl_spin_node .gyro_node
    ++ rcl_spin_node .steer_node
    ++ rcl_spin_node .temp_node

/-- The `for(;;)` loop, cut off after `passes` iterations. -/
def main_loop : ℕ → List TaskEvent
  | 0 => []
  | passes + 1 => spin_all_nodes ++ main_loop passes

/-- `StartDefaultTask`: the events of the setup followed by those of the first `passes`
iterations of the endless loop. -/
def StartDefaultTask (env : TaskEnv) (passes : ℕ) : List TaskEvent :=
  bootstrap env ++ main_loop passes

/-- Nodes whose init function was entered, in order. -/
def initialised (trace : List TaskEvent) : List Node :=
  trace.filterMap fun e => match e with
    | .init_node n => some n
    | _ => none

/-- Nodes that were spun, in order. -/
def spun (trace : List TaskEvent) : List Node :=
  trace.filterMap fun e => match e with
    | .rcl_spin_node n => some n
    | _ => none

/-- Registration calls that were made, in order. -/
def registrations (trace : List TaskEvent) : List Registration :=
  trace.filterMap fun e => match e with
    | .registration c _ => some c
    | _ => none

/-- The registration calls written in `brake_node_init`, in program order. -/
def brake_registrations : List Registration :=
  [ .rclc_node_init_default,
    .rclc_subscription_init_default .emergency_brake_sub,
    .rclc_subscription_init_default .brake_actuator_l_sub,
    .rclc_subscription_init_default .brake_actuator_r_sub,
    .rclc_publisher_init_default .brake_pedal_pressed_pub,
    .rclc_publisher_init_default .brake_pedal_position_pub,
    .rclc_publisher_init_default .brake_actuator_active_pub,
    .rclc_publisher_init_default .brake_act_position_pub,
    .rclc_timer_init_default,
    .rclc_executor_init,
    .rclc_executor_add_subscription .emergency_brake_sub,
    .rclc_executor_add_subscription .brake_actuator_l_sub,
    .rclc_executor_add_subscription .brake_actuator_r_sub,
    .rclc_executor_add_timer ]

/-- Both actuator sides are enabled at once. -/
def bothEnabled (s : BrakeState) : Prop :=
  s.hw.Brake_L_EN = .GPIO_PIN_SET ∧ s.hw.Brake_R_EN = .GPIO_PIN_SET

instance (s : BrakeState) : Decidable (bothEnabled s) := by
  unfold bothEnabled; infer_instance

/-- Example configuration: `BRAKE_INVERTED` not defined, threshold 500. -/
def cfgPlain : BrakeConfig :=
  { BRAKE_INVERTED := false, BRAKE_PEDAL_THRESHOLD := 500, toCompare := truncateCompare }

/-- Timer fires in which the pedal reads `r` throughout the fire, one per entry of
`readings`; the actuator position reads `a`. -/
def timerFires (a : ℕ) (readings : List ℕ) : List BrakeEvent :=
  readings.map fun r => BrakeEvent.timer ⟨a, r, r⟩

/-- Values carried by the pedal-pressed messages of a message list. -/
def pressedFlags (msgs : List (Topic × Payload)) : List Bool :=
  msgs.filterMap fun m => match m with
    | (.BRAKE_PEDAL_PRESSED_TOPIC, .bool b) => some b
    | _ => none

/-- Values carried by the pedal-position messages of a message list. -/
def pedalPositions (msgs : List (Topic × Payload)) : List ℚ :=
  msgs.filterMap fun m => match m with
    | (.BRAKE_PEDAL_POSITION_TOPIC, .float32 x) => some x
    | _ => none

/-- The six nodes in the order in which `StartDefaultTask` names them. -/
def node_order : List Node :=
  [.accel_node, .accessory_node, .brake_node, .gyro_node, .steer_node, .temp_node]

/-- A middleware on which every registration fails. -/
def rclAllFail : Middleware := fun _ => .RCL_RET_ERROR

/-- A middleware on which only the very first call, the node creation, fails. -/
def rclNodeInitFails : Middleware := fun c =>
  if c = .rclc_node_init_default then .RCL_RET_ERROR else .RCL_RET_OK

end ECU

namespace ECU

open GPIO_PinState

/-! ## Shared lemmas -/

/-- Hardware outputs after `brake_motor_control`, in closed form. -/
lemma brake_motor_control_hw (cfg : BrakeConfig) (bus : Bus) (left_pwm : ℚ)
    (left_enable : Bool) (right_pwm : ℚ) (right_enable : Bool) (s : BrakeState) :
    (brake_motor_control cfg bus left_pwm left_enable right_pwm right_enable s).hw =
      { Brake_L_EN := if left_enable then GPIO_PIN_SET else GPIO_PIN_RESET,
        Brake_R_EN := if right_enable then GPIO_PIN_SET else GPIO_PIN_RESET,
        Brake_Detect_LED := s.hw.Brake_Detect_LED,
        CCR_L := if left_enable then cfg.toCompare left_pwm else s.hw.CCR_L,
        CCR_R := if right_enable then cfg.toCompare right_pwm else s.hw.CCR_R } := by
  cases left_enable <;> cases right_enable <;> cases h : cfg.BRAKE_INVERTED <;>
    simp [brake_motor_control, __HAL_TIM_SET_COMPARE, HAL_GPIO_WritePin,
      send_brake_actuator_active_message, rclc_publish, h]

/-- Messages handed to the bus by `brake_motor_control`, in closed form: the earlier log
is kept, then one message per enabled side. -/
lemma brake_motor_control_sent (cfg : BrakeConfig) (bus : Bus) (left_pwm : ℚ)
    (left_enable : Bool) (right_pwm : ℚ) (right_enable : Bool) (s : BrakeState) :
    (brake_motor_control cfg bus left_pwm left_enable right_pwm right_enable s).published.map
        PublishCall.sent =
      s.published.map PublishCall.sent
        ++ (if left_enable then
              [(Topic.BRAKE_ACTUATOR_ACTIVE_TOPIC, Payload.bool cfg.BRAKE_INVERTED)]
            else [])
        ++ (if right_enable then
              [(Topic.BRAKE_ACTUATOR_ACTIVE_TOPIC, Payload.bool (!cfg.BRAKE_INVERTED))]
            else []) := by
  cases left_enable <;> cases right_enable <;> cases h : cfg.BRAKE_INVERTED <;>
    simp [brake_motor_control, __HAL_TIM_SET_COMPARE, HAL_GPIO_WritePin,
      send_brake_actuator_active_message, rclc_publish, PublishCall.sent, h]

/-- The log only grows during `brake_motor_control`. -/
lemma brake_motor_control_log_kept (cfg : BrakeConfig) (bus : Bus) (left_pwm : ℚ)
    (left_enable : Bool) (right_pwm : ℚ) (right_enable : Bool) (s : BrakeState) :
    (brake_motor_control cfg bus left_pwm left_enable right_pwm right_enable s).published.take
        s.published.length = s.published := by
  cases left_enable <;> cases right_enable <;> cases h : cfg.BRAKE_INVERTED <;>
    simp [brake_motor_control, __HAL_TIM_SET_COMPARE, HAL_GPIO_WritePin,
      send_brake_actuator_active_message, rclc_publish, h, List.take_append_eq_append_take]

/-! ## Actuation -/

/-- Claim C4. For all arguments and every prior state, `brake_motor_control` writes the
compare register of a side only when the enable flag of that side is true (otherwise the
register keeps its earlier value), and it always writes both enable pins: afterwards the
left pin is SET iff `left_enable`, the right pin is SET iff `right_enable`, and a pin that
is not SET is RESET. -/
theorem brake_motor_control_gates_pwm_on_enable (cfg : BrakeConfig) (bus : Bus)
    (left_pwm : ℚ) (left_enable : Bool) (right_pwm : ℚ) (right_enable : Bool)
    (s : BrakeState) :
    ((brake_motor_control cfg bus left_pwm left_enable right_pwm right_enable s).hw.CCR_L =
        if left_enable then cfg.toCompare left_pwm else s.hw.CCR_L) ∧
    ((brake_motor_control cfg bus left_pwm left_enable right_pwm right_enable s).hw.CCR_R =
        if right_enable then cfg.toCompare right_pwm else s.hw.CCR_R) ∧
    ((brake_motor_control cfg bus left_pwm left_enable right_pwm right_enable s).hw.Brake_L_EN
        = GPIO_PIN_SET ↔ left_enable = true) ∧
    ((brake_motor_control cfg bus left_pwm left_enable right_pwm right_enable s).hw.Brake_R_EN
        = GPIO_PIN_SET ↔ right_enable = true) ∧
    ((brake_motor_control cfg bus left_pwm left_enable right_pwm right_enable s).hw.Brake_L_EN
        = GPIO_PIN_RESET ↔ left_enable = false) ∧
    ((brake_motor_control cfg bus left_pwm left_enable right_pwm right_enable s).hw.Brake_R_EN
        = GPIO_PIN_RESET ↔ right_enable = false) := by
  rw [brake_motor_control_hw]
  cases left_enable <;> cases right_enable <;> simp

/-- Claim C1. Whatever boolean the emergency-stop message carries: when `BRAKE_INVERTED`
is not defined the callback sets the right enable pin, writes the right compare register
with duty 255 and resets the left enable pin; when it is defined the sides swap.  The
state reached is the same for message content true and false. -/
theorem emergency_brake_callback_full_actuation (thr : ℚ) (conv : ℚ → ℕ) (bus : Bus)
    (msg : Bool) (s : BrakeState) :
    ((emergency_brake_callback ⟨false, thr, conv⟩ bus msg s).hw.Brake_R_EN = GPIO_PIN_SET ∧
      (emergency_brake_callback ⟨false, thr, conv⟩ bus msg s).hw.CCR_R = conv 255 ∧
      (emergency_brake_callback ⟨false, thr, conv⟩ bus msg s).hw.Brake_L_EN = GPIO_PIN_RESET) ∧
    ((emergency_brake_callback ⟨true, thr, conv⟩ bus msg s).hw.Brake_L_EN = GPIO_PIN_SET ∧
      (emergency_brake_callback ⟨true, thr, conv⟩ bus msg s).hw.CCR_L = conv 255 ∧
      (emergency_brake_callback ⟨true, thr, conv⟩ bus msg s).hw.Brake_R_EN = GPIO_PIN_RESET) ∧
    (emergency_brake_callback ⟨false, thr, conv⟩ bus true s =
      emergency_brake_callback ⟨false, thr, conv⟩ bus false s) ∧
    (emergency_brake_callback ⟨true, thr, conv⟩ bus true s =
      emergency_brake_callback ⟨true, thr, conv⟩ bus false s) := by
  simp [emergency_brake_callback, brake_motor_control_hw]

/-! ## Pedal detection -/

/-- A reading below `2 ^ 24` is converted to `float` without rounding. -/
lemma uint32_to_float_of_lt (n : ℕ) (h : n < 2 ^ 24) : uint32_to_float n = (n : ℚ) := by
  have h32 : n % 2 ^ 32 = n := Nat.mod_eq_of_lt (by omega)
  have he : excessBits 8 n = 0 := by
    unfold excessBits
    rw [if_pos h]
  rw [uint32_to_float, h32, he]
  simp [roundToEven, Nat.mod_one]

/-- Rounding never goes below the multiple of `2 ^ e` just under `n`. -/
lemma roundToEven_ge (n e : ℕ) : n / 2 ^ e * 2 ^ e ≤ roundToEven n e := by
  unfold roundToEven
  dsimp only
  split
  · exact Nat.mul_le_mul_right _ (Nat.le_succ _)
  · exact le_rfl

/-- For a value of at least `2 ^ 24`, at least one bit is dropped and the bits that are
kept still reach `2 ^ 23`. -/
lemma excessBits_spec (fuel n : ℕ) (h : 2 ^ 24 ≤ n) :
    1 ≤ excessBits (fuel + 1) n ∧ 2 ^ 23 ≤ n / 2 ^ excessBits (fuel + 1) n := by
  induction fuel generalizing n with
  | zero =>
    have hn : ¬ n < 2 ^ 24 := not_lt.mpr h
    simp only [excessBits, if_neg hn]
    refine ⟨le_rfl, ?_⟩
    norm_num
    omega
  | succ fuel ih =>
    have hn : ¬ n < 2 ^ 24 := not_lt.mpr h
    rw [excessBits, if_neg hn]
    refine ⟨Nat.le_add_left _ _, ?_⟩
    by_cases h2 : n / 2 < 2 ^ 24
    · have : excessBits (fuel + 1) (n / 2) = 0 := by rw [excessBits, if_pos h2]
      rw [this]
      norm_num
      omega
    · have := (ih (n / 2) (not_lt.mp h2)).2
      rwa [Nat.div_div_eq_div_mul, ← pow_succ'] at this

/-- A 32-bit reading of at least `2 ^ 24` is converted to a `float` of at least
`2 ^ 24`. -/
lemma uint32_to_float_ge (n : ℕ) (h : 2 ^ 24 ≤ n) (h32 : n < 2 ^ 32) :
    (2 ^ 24 : ℚ) ≤ uint32_to_float n := by
  have hm : n % 2 ^ 32 = n := Nat.mod_eq_of_lt h32
  obtain ⟨h1, h2⟩ := excessBits_spec 7 n h
  have h3 := roundToEven_ge n (excessBits 8 n)
  have h4 : 2 ^ 24 ≤ roundToEven n (excessBits 8 n) := by
    calc 2 ^ 24 = 2 ^ 23 * 2 ^ 1 := by norm_num
      _ ≤ n / 2 ^ excessBits 8 n * 2 ^ excessBits 8 n :=
          Nat.mul_le_mul h2 (Nat.pow_le_pow_right (by norm_num) h1)
      _ ≤ _ := h3
  rw [uint32_to_float, hm]
  exact_mod_cast h4

/-- The reduction modulo `2 ^ 32` is already part of `uint32_to_float`. -/
lemma read_brake_pedal_position_eq (raw : ℕ) :
    read_brake_pedal_position raw = uint32_to_float raw := by
  simp [read_brake_pedal_position, uint32_to_float]

/-- The reduction modulo `2 ^ 32` is already part of `uint32_to_float`. -/
lemma brake_get_actuator_pos_eq (raw : ℕ) :
    brake_get_actuator_pos raw = uint32_to_float raw := by
  simp [brake_get_actuator_pos, uint32_to_float]

/-- Claim C5, counterexample.  With a threshold of `2 ^ 24` the reading `2 ^ 24 + 1`
exceeds the threshold, but it is returned as the `float` `2 ^ 24`, so `brake_is_pressed`
returns false (and resets the LED pin). -/
theorem brake_is_pressed_false_above_threshold :
    ((16777217 : ℕ) : ℚ) > (16777216 : ℚ) ∧
    read_brake_pedal_position 16777217 = 16777216 ∧
    (brake_is_pressed ⟨false, 16777216, truncateCompare⟩ 16777217 resetState).1 = false ∧
    (brake_is_pressed ⟨false, 16777216, truncateCompare⟩ 16777217
      resetState).2.hw.Brake_Detect_LED = GPIO_PIN_RESET := by
  decide

/-- Claim C5, as amended.  For every raw pedal reading `r` below `2 ^ 24`, and for every
32-bit reading when `BRAKE_PEDAL_THRESHOLD` is below `2 ^ 24`, `brake_is_pressed` returns
true iff `r > BRAKE_PEDAL_THRESHOLD`.  For every reading it returns true iff the reading,
as returned in `float`, exceeds the threshold, and after the call the brake-detect LED pin
is SET when it returned true and RESET when it returned false. -/
theorem brake_is_pressed_iff_above_threshold (cfg : BrakeConfig) (r : ℕ) (s : BrakeState) :
    (r < 2 ^ 24 →
      ((brake_is_pressed cfg r s).1 = true ↔ (r : ℚ) > cfg.BRAKE_PEDAL_THRESHOLD)) ∧
    (r < 2 ^ 32 → cfg.BRAKE_PEDAL_THRESHOLD < 2 ^ 24 →
      ((brake_is_pressed cfg r s).1 = true ↔ (r : ℚ) > cfg.BRAKE_PEDAL_THRESHOLD)) ∧
    ((brake_is_pressed cfg r s).1 = true ↔
      uint32_to_float r > cfg.BRAKE_PEDAL_THRESHOLD) ∧
    ((brake_is_pressed cfg r s).2.hw.Brake_Detect_LED =
      if (brake_is_pressed cfg r s).1 then GPIO_PIN_SET else GPIO_PIN_RESET) := by
  have hgen : (brake_is_pressed cfg r s).1 = true ↔
      uint32_to_float r > cfg.BRAKE_PEDAL_THRESHOLD := by
    unfold brake_is_pressed
    rw [read_brake_pedal_position_eq]
    by_cases h : uint32_to_float r > cfg.BRAKE_PEDAL_THRESHOLD <;> simp [h]
  refine ⟨?_, ?_, hgen, ?_⟩
  · intro hr
    rw [hgen, uint32_to_float_of_lt r hr]
  · intro hr ht
    by_cases hsmall : r < 2 ^ 24
    · rw [hgen, uint32_to_float_of_lt r hsmall]
    · have hge : 2 ^ 24 ≤ r := not_lt.mp hsmall
      have h1 : uint32_to_float r > cfg.BRAKE_PEDAL_THRESHOLD :=
        lt_of_lt_of_le ht (uint32_to_float_ge r hge hr)
      have h2 : (r : ℚ) > cfg.BRAKE_PEDAL_THRESHOLD := by
        have : (2 ^ 24 : ℚ) ≤ (r : ℚ) := by exact_mod_cast hge
        exact lt_of_lt_of_le ht this
      rw [hgen]
      exact ⟨fun _ => h2, fun _ => h1⟩
  · unfold brake_is_pressed
    rw [read_brake_pedal_position_eq]
    by_cases h : uint32_to_float r > cfg.BRAKE_PEDAL_THRESHOLD <;>
      simp [h, brake_detect_led, HAL_GPIO_WritePin]

/-- Claim C5, as amended, at the reading 1000, and at the reading `2 ^ 24 + 1`, with
threshold 500 in the power-on state. -/
theorem brake_is_pressed_iff_above_threshold_witness :
    ((1000 : ℕ) < 2 ^ 24 ∧
      ((brake_is_pressed cfgPlain 1000 resetState).1 = true ↔
        ((1000 : ℕ) : ℚ) > cfgPlain.BRAKE_PEDAL_THRESHOLD)) ∧
    ((16777217 : ℕ) < 2 ^ 32 ∧ cfgPlain.BRAKE_PEDAL_THRESHOLD < 2 ^ 24 ∧
      ((brake_is_pressed cfgPlain 16777217 resetState).1 = true ↔
        ((16777217 : ℕ) : ℚ) > cfgPlain.BRAKE_PEDAL_THRESHOLD)) :=
  ⟨⟨by decide,
      (brake_is_pressed_iff_above_threshold cfgPlain 1000 resetState).1 (by decide)⟩,
    ⟨by decide, by norm_num [cfgPlain],
      (brake_is_pressed_iff_above_threshold cfgPlain 16777217 resetState).2.1 (by decide)
        (by norm_num [cfgPlain])⟩⟩

/-! ## Status messages -/

/-- If the log of `t` is that of `s` followed by `l`, the messages new in `t` are `l`. -/
lemma newMessages_of_sent {s t : BrakeState} {l : List (Topic × Payload)}
    (h : t.published.map PublishCall.sent = s.published.map PublishCall.sent ++ l) :
    newMessages s t = l := by
  unfold newMessages
  rw [List.map_drop, h]
  exact List.drop_left' (by simp)

/-- Claim C3, counterexample.  With `BRAKE_INVERTED` not defined, enabling the left side
from the power-on state publishes the value `false`, whereas `true XOR inverted` is
`true`; and the following call, which takes the left side from enabled to disabled,
publishes nothing. -/
theorem left_transition_message_not_enable_xor_inverted :
    (resetState.hw.Brake_L_EN = GPIO_PIN_RESET ∧
      (brake_motor_control cfgPlain busAccept 100 true 0 false resetState).hw.Brake_L_EN
        = GPIO_PIN_SET ∧
      newMessages resetState (brake_motor_control cfgPlain busAccept 100 true 0 false resetState)
        = [(Topic.BRAKE_ACTUATOR_ACTIVE_TOPIC, Payload.bool false)] ∧
      xor true cfgPlain.BRAKE_INVERTED = true) ∧
    ((brake_motor_control cfgPlain busAccept 0 false 0 false
        (brake_motor_control cfgPlain busAccept 100 true 0 false resetState)).hw.Brake_L_EN
        = GPIO_PIN_RESET ∧
      newMessages (brake_motor_control cfgPlain busAccept 100 true 0 false resetState)
        (brake_motor_control cfgPlain busAccept 0 false 0 false
          (brake_motor_control cfgPlain busAccept 100 true 0 false resetState)) = []) := by
  decide

/-- Claim C3, as amended.  For every call of `brake_motor_control` the messages published
by the call are: one actuator-active message for the left side exactly when `left_enable`
is true, of value `inverted`, followed by one for the right side exactly when
`right_enable` is true, of value `NOT inverted` (that is `true XOR inverted`).  Nothing is
published for a side whose enable argument is false, and earlier log entries are kept. -/
theorem brake_motor_control_publishes_per_enabled_side (cfg : BrakeConfig) (bus : Bus)
    (left_pwm : ℚ) (left_enable : Bool) (right_pwm : ℚ) (right_enable : Bool)
    (s : BrakeState) :
    newMessages s (brake_motor_control cfg bus left_pwm left_enable right_pwm right_enable s) =
      (if left_enable then
          [(Topic.BRAKE_ACTUATOR_ACTIVE_TOPIC, Payload.bool cfg.BRAKE_INVERTED)]
        else [])
      ++ (if right_enable then
          [(Topic.BRAKE_ACTUATOR_ACTIVE_TOPIC, Payload.bool (xor true cfg.BRAKE_INVERTED))]
        else []) ∧
    (brake_motor_control cfg bus left_pwm left_enable right_pwm right_enable s).published.take
      s.published.length = s.published := by
  refine ⟨?_, brake_motor_control_log_kept cfg bus left_pwm left_enable right_pwm
    right_enable s⟩
  apply newMessages_of_sent
  rw [brake_motor_control_sent]
  simp [List.append_assoc]

/-! ## Actuator commands -/

/-- Claim C8.  For all arguments and every prior state, the hardware outputs (enable pins,
LED pin and compare registers) after `brake_motor_control` and after each of the
emergency, left-command and right-command callbacks do not depend on which publishes the
bus accepts; the same messages are handed to the bus either way, so only their delivery
differs. -/
theorem publish_outcome_does_not_alter_actuator (cfg : BrakeConfig) (bus₁ bus₂ : Bus)
    (left_pwm : ℚ) (left_enable : Bool) (right_pwm : ℚ) (right_enable : Bool)
    (msg : Bool) (v : ℚ) (s : BrakeState) :
    (brake_motor_control cfg bus₁ left_pwm left_enable right_pwm right_enable s).hw =
      (brake_motor_control cfg bus₂ left_pwm left_enable right_pwm right_enable s).hw ∧
    (emergency_brake_callback cfg bus₁ msg s).hw = (emergency_brake_callback cfg bus₂ msg s).hw ∧
    (brake_actuator_l_callback cfg bus₁ v s).hw = (brake_actuator_l_callback cfg bus₂ v s).hw ∧
    (brake_actuator_r_callback cfg bus₁ v s).hw = (brake_actuator_r_callback cfg bus₂ v s).hw ∧
    (brake_motor_control cfg bus₁ left_pwm left_enable right_pwm right_enable s).published.map
        PublishCall.sent =
      (brake_motor_control cfg bus₂ left_pwm left_enable right_pwm right_enable
        s).published.map PublishCall.sent := by
  refine ⟨?_, ?_, ?_, ?_, ?_⟩
  · simp [brake_motor_control_hw]
  · unfold emergency_brake_callback
    cases cfg.BRAKE_INVERTED <;> simp [brake_motor_control_hw]
  · unfold brake_actuator_l_callback
    by_cases h : v > 0 <;> simp [h, brake_motor_control_hw]
  · unfold brake_actuator_r_callback
    by_cases h : v > 0 <;> simp [h, brake_motor_control_hw]
  · simp [brake_motor_control_sent]

/-! ## Timer callback -/

/-- Hardware outputs after `brake_timer_callback`: only the LED pin is written. -/
lemma brake_timer_callback_hw (cfg : BrakeConfig) (bus : Bus) (adc : AdcSamples)
    (s : BrakeState) :
    (brake_timer_callback cfg bus adc s).hw =
      { s.hw with
        Brake_Detect_LED :=
          if uint32_to_float adc.pedal_detect > cfg.BRAKE_PEDAL_THRESHOLD then GPIO_PIN_SET
          else GPIO_PIN_RESET } := by
  unfold brake_timer_callback brake_is_pressed
  rw [read_brake_pedal_position_eq]
  by_cases h : uint32_to_float adc.pedal_detect > cfg.BRAKE_PEDAL_THRESHOLD <;>
    simp [h, rclc_publish, brake_detect_led, HAL_GPIO_WritePin]

/-- Messages handed to the bus by `brake_timer_callback`, in closed form. -/
lemma brake_timer_callback_sent (cfg : BrakeConfig) (bus : Bus) (adc : AdcSamples)
    (s : BrakeState) :
    (brake_timer_callback cfg bus adc s).published.map PublishCall.sent =
      s.published.map PublishCall.sent ++
        [ (Topic.BRAKE_PEDAL_PRESSED_TOPIC,
            Payload.bool (decide (uint32_to_float adc.pedal_detect >
              cfg.BRAKE_PEDAL_THRESHOLD))),
          (Topic.BRAKE_PEDAL_POSITION_TOPIC,
            Payload.float32 (if uint32_to_float adc.pedal_detect > cfg.BRAKE_PEDAL_THRESHOLD
              then uint32_to_float adc.pedal_report else 0)),
          (Topic.BRAKE_ACTUATOR_POSITION_TOPIC,
            Payload.float32 (uint32_to_float adc.actuator)),
          (Topic.BRAKE_ACTUATOR_ACTIVE_TOPIC, Payload.bool (brake_actuator_is_active s)) ] := by
  unfold brake_timer_callback brake_is_pressed
  rw [read_brake_pedal_position_eq, read_brake_pedal_position_eq, brake_get_actuator_pos_eq]
  by_cases h : uint32_to_float adc.pedal_detect > cfg.BRAKE_PEDAL_THRESHOLD <;>
    simp [h, rclc_publish, brake_detect_led, HAL_GPIO_WritePin, PublishCall.sent,
      brake_actuator_is_active, HAL_GPIO_ReadPin]

/-- The timer callback does not change what `brake_actuator_is_active` reports. -/
lemma brake_timer_callback_active (cfg : BrakeConfig) (bus : Bus) (adc : AdcSamples)
    (s : BrakeState) :
    brake_actuator_is_active (brake_timer_callback cfg bus adc s) =
      brake_actuator_is_active s := by
  simp [brake_actuator_is_active, HAL_GPIO_ReadPin, brake_timer_callback_hw]

/-- Messages handed to the bus by a run of consecutive timer fires. -/
lemma run_timerFires_sent (cfg : BrakeConfig) (bus : Bus) (a : ℕ) (rs : List ℕ)
    (s : BrakeState) :
    (run cfg bus (timerFires a rs) s).published.map PublishCall.sent =
      s.published.map PublishCall.sent ++ rs.flatMap fun r =>
        [ (Topic.BRAKE_PEDAL_PRESSED_TOPIC,
            Payload.bool (decide (uint32_to_float r > cfg.BRAKE_PEDAL_THRESHOLD))),
          (Topic.BRAKE_PEDAL_POSITION_TOPIC,
            Payload.float32 (if uint32_to_float r > cfg.BRAKE_PEDAL_THRESHOLD
              then uint32_to_float r else 0)),
          (Topic.BRAKE_ACTUATOR_POSITION_TOPIC, Payload.float32 (uint32_to_float a)),
          (Topic.BRAKE_ACTUATOR_ACTIVE_TOPIC, Payload.bool (brake_actuator_is_active s)) ] := by
  induction rs generalizing s with
  | nil => simp [run, timerFires]
  | cons r rs ih =>
    have h := ih (brake_timer_callback cfg bus ⟨a, r, r⟩ s)
    simp only [run, timerFires, List.map_cons, List.foldl_cons, dispatch] at h ⊢
    rw [h, brake_timer_callback_sent, brake_timer_callback_active]
    simp [List.append_assoc]

/-- Claim C6, counterexample.  With threshold 500, a fire during which the pedal reads
`2 ^ 24 + 1` finds the pedal pressed, but the pedal-position message carries the `float`
`2 ^ 24`, not the raw reading. -/
theorem pedal_position_message_is_rounded :
    ((16777217 : ℕ) : ℚ) > cfgPlain.BRAKE_PEDAL_THRESHOLD ∧
    pressedFlags (newMessages resetState
      (brake_timer_callback cfgPlain busAccept ⟨0, 16777217, 16777217⟩ resetState)) = [true] ∧
    pedalPositions (newMessages resetState
      (brake_timer_callback cfgPlain busAccept ⟨0, 16777217, 16777217⟩ resetState))
        = [16777216] ∧
    ¬ pedalPositions (newMessages resetState
      (brake_timer_callback cfgPlain busAccept ⟨0, 16777217, 16777217⟩ resetState))
        = [((16777217 : ℕ) : ℚ)] := by
  decide

/-- Claim C6, as amended.  A fire of the brake timer during which the pedal reads `r`
publishes exactly four messages, one on each topic, in this order: pedal-pressed,
pedal-position, actuator-position and actuator-active; earlier log entries are kept.  The
pedal-pressed value tells whether the reading, as returned in `float`, exceeds the
threshold, and the pedal-position value is that `float` when pressed and 0 otherwise.  For
`r` below `2 ^ 24` the `float` is `r` itself: the pedal-pressed value is `r > threshold`
and the pedal-position value is `r` when pressed and 0 otherwise.  With threshold 500,
four consecutive fires reading 0, 1000, 1000, 0 yield the pressed flags false, true, true,
false and the pedal positions 0, 1000, 1000, 0. -/
theorem brake_timer_callback_publishes_four (cfg : BrakeConfig) (bus : Bus) (a r : ℕ)
    (s : BrakeState) :
    newMessages s (brake_timer_callback cfg bus ⟨a, r, r⟩ s) =
      [ (Topic.BRAKE_PEDAL_PRESSED_TOPIC,
          Payload.bool (decide (uint32_to_float r > cfg.BRAKE_PEDAL_THRESHOLD))),
        (Topic.BRAKE_PEDAL_POSITION_TOPIC,
          Payload.float32 (if uint32_to_float r > cfg.BRAKE_PEDAL_THRESHOLD
            then uint32_to_float r else 0)),
        (Topic.BRAKE_ACTUATOR_POSITION_TOPIC, Payload.float32 (uint32_to_float a)),
        (Topic.BRAKE_ACTUATOR_ACTIVE_TOPIC, Payload.bool (brake_actuator_is_active s)) ] ∧
    (r < 2 ^ 24 →
      newMessages s (brake_timer_callback cfg bus ⟨a, r, r⟩ s) =
        [ (Topic.BRAKE_PEDAL_PRESSED_TOPIC,
            Payload.bool (decide ((r : ℚ) > cfg.BRAKE_PEDAL_THRESHOLD))),
          (Topic.BRAKE_PEDAL_POSITION_TOPIC,
            Payload.float32 (if (r : ℚ) > cfg.BRAKE_PEDAL_THRESHOLD then (r : ℚ) else 0)),
          (Topic.BRAKE_ACTUATOR_POSITION_TOPIC, Payload.float32 (uint32_to_float a)),
          (Topic.BRAKE_ACTUATOR_ACTIVE_TOPIC, Payload.bool (brake_actuator_is_active s)) ]) ∧
    (newMessages s (brake_timer_callback cfg bus ⟨a, r, r⟩ s)).length = 4 ∧
    ((newMessages s (brake_timer_callback cfg bus ⟨a, r, r⟩ s)).map Prod.fst).Nodup ∧
    (brake_timer_callback cfg bus ⟨a, r, r⟩ s).published.take s.published.length
      = s.published ∧
    pressedFlags (newMessages s
        (run { cfg with BRAKE_PEDAL_THRESHOLD := 500 } bus (timerFires a [0, 1000, 1000, 0]) s))
      = [false, true, true, false] ∧
    pedalPositions (newMessages s
        (run { cfg with BRAKE_PEDAL_THRESHOLD := 500 } bus (timerFires a [0, 1000, 1000, 0]) s))
      = [0, 1000, 1000, 0] := by
  have hnew := newMessages_of_sent (brake_timer_callback_sent cfg bus ⟨a, r, r⟩ s)
  have hrun := newMessages_of_sent
    (run_timerFires_sent { cfg with BRAKE_PEDAL_THRESHOLD := 500 } bus a [0, 1000, 1000, 0] s)
  have h0 : uint32_to_float 0 = 0 := by decide
  have h1000 : uint32_to_float 1000 = 1000 := by decide
  refine ⟨hnew, ?_, ?_, ?_, ?_, ?_, ?_⟩
  · intro hr
    rw [hnew]
    simp only [uint32_to_float_of_lt r hr]
  · rw [hnew]; rfl
  · rw [hnew]; simp
  · unfold brake_timer_callback
    simp [rclc_publish, List.take_append_eq_append_take]
    unfold brake_is_pressed
    split <;> simp [brake_detect_led, HAL_GPIO_WritePin]
  · rw [hrun]
    norm_num [pressedFlags, h0, h1000]
    rfl
  · rw [hrun]
    norm_num [pedalPositions, h0, h1000]
    rfl

/-- Claim C6, as amended, for a fire reading 1000 with threshold 500 in the power-on
state. -/
theorem brake_timer_callback_publishes_four_witness :
    (1000 : ℕ) < 2 ^ 24 ∧
    newMessages resetState (brake_timer_callback cfgPlain busAccept ⟨7, 1000, 1000⟩ resetState) =
      [ (Topic.BRAKE_PEDAL_PRESSED_TOPIC,
          Payload.bool (decide (((1000 : ℕ) : ℚ) > cfgPlain.BRAKE_PEDAL_THRESHOLD))),
        (Topic.BRAKE_PEDAL_POSITION_TOPIC,
          Payload.float32 (if ((1000 : ℕ) : ℚ) > cfgPlain.BRAKE_PEDAL_THRESHOLD
            then ((1000 : ℕ) : ℚ) else 0)),
        (Topic.BRAKE_ACTUATOR_POSITION_TOPIC, Payload.float32 (uint32_to_float 7)),
        (Topic.BRAKE_ACTUATOR_ACTIVE_TOPIC,
          Payload.bool (brake_actuator_is_active resetState)) ] :=
  ⟨by decide,
    (brake_timer_callback_publishes_four cfgPlain busAccept 7 1000 resetState).2.1
      (by decide)⟩

/-! ## Bring-up and main loop -/

/-- The calls made by `brake_node_init` do not depend on the statuses returned. -/
lemma brake_node_init_calls (rcl : Middleware) :
    (brake_node_init rcl).map Prod.fst = brake_registrations := by
  simp [brake_node_init, register, brake_registrations]

/-- No node is spun during the setup. -/
lemma spun_bootstrap (env : TaskEnv) : spun (bootstrap env) = [] := by
  cases h : env.allocator_ok <;>
    simp [spun, bootstrap, h, List.filterMap_append, List.filterMap_map, Function.comp_def]

/-- The setup enters the init functions in the order of `node_order`. -/
lemma initialised_bootstrap (env : TaskEnv) : initialised (bootstrap env) = node_order := by
  cases h : env.allocator_ok <;>
    simp [initialised, bootstrap, h, List.filterMap_append, List.filterMap_map,
      Function.comp_def, node_order]

/-- The setup makes exactly the registration calls of `brake_node_init`. -/
lemma registrations_bootstrap (env : TaskEnv) :
    registrations (bootstrap env) = brake_registrations := by
  cases h : env.allocator_ok <;>
    simp [registrations, bootstrap, h, List.filterMap_append, List.filterMap_map,
      Function.comp_def, brake_node_init, register, brake_registrations]

/-- The loop spins the nodes in the order of `node_order`, once per pass. -/
lemma spun_main_loop (passes : ℕ) :
    spun (main_loop passes) = (List.replicate passes node_order).flatten := by
  induction passes with
  | zero => simp [main_loop, spun]
  | succ n ih =>
    have h : spun spin_all_nodes = node_order := by decide
    unfold spun at ih h ⊢
    rw [main_loop, List.filterMap_append, ih, h, List.replicate_succ, List.flatten_cons]

/-- No init function is entered inside the loop. -/
lemma initialised_main_loop (passes : ℕ) : initialised (main_loop passes) = [] := by
  induction passes with
  | zero => simp [main_loop, initialised]
  | succ n ih =>
    have h : initialised spin_all_nodes = [] := by decide
    unfold initialised at ih h ⊢
    rw [main_loop, List.filterMap_append, ih, h, List.append_nil]

/-- Pass `k` of a repeated list. -/
lemma drop_take_flatten_replicate {α : Type} (l : List α) (n k : ℕ) (hk : k < n) :
    (((List.replicate n l).flatten).drop (k * l.length)).take l.length = l := by
  induction n generalizing k with
  | zero => omega
  | succ n ih =>
    rw [List.replicate_succ, List.flatten_cons]
    cases k with
    | zero => simp
    | succ k =>
      have hlen : (k + 1) * l.length = l.length + k * l.length := by ring
      rw [hlen, ← List.drop_drop, List.drop_left' rfl]
      exact ih k (by omega)

/-- Claim C7, counterexample.  On a middleware whose very first registration (the node
creation) fails, `brake_node_init` still performs all fourteen registration calls, the
default task still initialises the three nodes that follow and enters the loop, where it
spins all six nodes. -/
theorem failed_registration_not_propagated :
    rclNodeInitFails .rclc_node_init_default = .RCL_RET_ERROR ∧
    (brake_node_init rclNodeInitFails).map Prod.fst = brake_registrations ∧
    (brake_node_init rclNodeInitFails).length = 14 ∧
    registrations (StartDefaultTask ⟨true, rclNodeInitFails⟩ 1) = brake_registrations ∧
    initialised (StartDefaultTask ⟨true, rclNodeInitFails⟩ 1) = node_order ∧
    spun (StartDefaultTask ⟨true, rclNodeInitFails⟩ 1) = node_order := by
  decide

/-- Claim C7, as amended.  `brake_node_init` reports nothing: whatever status the
registration calls return, it performs all fourteen of them in program order and records
the statuses unchanged; the default task then enters every init function and the loop,
so that the brake node is spun in each pass. -/
theorem registration_status_is_ignored (env : TaskEnv) (passes : ℕ) :
    (brake_node_init env.rcl).map Prod.fst = brake_registrations ∧
    (brake_node_init env.rcl).map Prod.snd = brake_registrations.map env.rcl ∧
    registrations (StartDefaultTask env passes) = brake_registrations ∧
    initialised (StartDefaultTask env passes) = node_order ∧
    spun (StartDefaultTask env passes) = (List.replicate passes node_order).flatten ∧
    (spun (StartDefaultTask env (passes + 1))).count Node.brake_node = passes + 1 := by
  have hreg : registrations (main_loop passes) = [] := by
    induction passes with
    | zero => simp [main_loop, registrations]
    | succ n ih =>
      have h : registrations spin_all_nodes = [] := by decide
      unfold registrations at ih h ⊢
      rw [main_loop, List.filterMap_append, ih, h, List.append_nil]
  have hspun : ∀ n, spun (StartDefaultTask env n) = (List.replicate n node_order).flatten := by
    intro n
    have h1 := spun_bootstrap env
    have h2 := spun_main_loop n
    unfold spun at h1 h2 ⊢
    rw [StartDefaultTask, List.filterMap_append, h1, h2, List.nil_append]
  refine ⟨brake_node_init_calls env.rcl, ?_, ?_, ?_, hspun passes, ?_⟩
  · simp [brake_node_init, register, brake_registrations]
  · have h1 := registrations_bootstrap env
    unfold registrations at h1 hreg ⊢
    rw [StartDefaultTask, List.filterMap_append, h1, hreg, List.append_nil]
  · have h1 := initialised_bootstrap env
    have h2 := initialised_main_loop passes
    unfold initialised at h1 h2 ⊢
    rw [StartDefaultTask, List.filterMap_append, h1, h2, List.append_nil]
  · rw [hspun]
    generalize passes + 1 = n
    induction n with
    | zero => simp
    | succ n ih =>
      rw [List.replicate_succ, List.flatten_cons, List.count_append, ih]
      have : List.count Node.brake_node node_order = 1 := by decide
      omega

/-- Claim C9.  In every pass of the main loop of `StartDefaultTask` the nodes spun are
exactly the six initialised nodes, each once, in the order in which their init functions
were entered at start-up: the init order is acceleration, accessories, brake, gyro,
steering, temperature, it has no repeats and contains every node, the spin sequence of
`passes` passes is `passes` copies of it, and each single pass equals it. -/
theorem every_pass_spins_nodes_in_init_order (env : TaskEnv) (passes : ℕ) :
    initialised (StartDefaultTask env passes) =
      [.accel_node, .accessory_node, .brake_node, .gyro_node, .steer_node, .temp_node] ∧
    (initialised (StartDefaultTask env passes)).Nodup ∧
    (∀ n : Node, n ∈ initialised (StartDefaultTask env passes)) ∧
    spun (StartDefaultTask env passes) =
      (List.replicate passes (initialised (StartDefaultTask env passes))).flatten ∧
    (∀ k : Fin passes,
      ((spun (StartDefaultTask env passes)).drop (k.val * 6)).take 6 =
        initialised (StartDefaultTask env passes)) := by
  have hinit : initialised (StartDefaultTask env passes) = node_order := by
    have h1 := initialised_bootstrap env
    have h2 := initialised_main_loop passes
    unfold initialised at h1 h2 ⊢
    rw [StartDefaultTask, List.filterMap_append, h1, h2, List.append_nil]
  have hspun : spun (StartDefaultTask env passes) =
      (List.replicate passes node_order).flatten := by
    have h1 := spun_bootstrap env
    have h2 := spun_main_loop passes
    unfold spun at h1 h2 ⊢
    rw [StartDefaultTask, List.filterMap_append, h1, h2, List.nil_append]
  rw [hinit, hspun]
  refine ⟨rfl, by decide, ?_, rfl, ?_⟩
  · intro n
    cases n <;> decide
  · intro k
    exact drop_take_flatten_replicate node_order passes k.val k.isLt

/-! ## Mutual exclusion of the two sides -/

/-- Every subscription callback leaves at most one side enabled; the timer callback keeps
both enable pins. -/
lemma dispatch_not_bothEnabled (cfg : BrakeConfig) (bus : Bus) (ev : BrakeEvent)
    (s : BrakeState) (h : ¬ bothEnabled s) : ¬ bothEnabled (dispatch cfg bus ev s) := by
  cases ev with
  | emergency msg =>
    unfold bothEnabled dispatch emergency_brake_callback
    cases cfg.BRAKE_INVERTED <;> simp [brake_motor_control_hw]
  | actuator_l v =>
    unfold bothEnabled dispatch brake_actuator_l_callback
    by_cases hv : v > 0 <;> simp [hv, brake_motor_control_hw]
  | actuator_r v =>
    unfold bothEnabled dispatch brake_actuator_r_callback
    by_cases hv : v > 0 <;> simp [hv, brake_motor_control_hw]
  | timer adc =>
    unfold bothEnabled dispatch at *
    simpa [brake_timer_callback_hw] using h

/-- Claim C10.  Starting from a state in which the two enable pins are not both SET, after
any finite sequence of brake-node callbacks (emergency, left command, right command,
timer, with arbitrary data) the two enable pins are not both SET.  Moreover each
subscription callback leaves at most one side enabled from any state, and the timer
callback changes neither enable pin. -/
theorem enable_pins_never_both_set (cfg : BrakeConfig) (bus : Bus) (s : BrakeState)
    (h : ¬ bothEnabled s) :
    (∀ evs : List BrakeEvent, ¬ bothEnabled (run cfg bus evs s)) ∧
    (∀ (msg : Bool) (t : BrakeState), ¬ bothEnabled (emergency_brake_callback cfg bus msg t)) ∧
    (∀ (v : ℚ) (t : BrakeState), ¬ bothEnabled (brake_actuator_l_callback cfg bus v t)) ∧
    (∀ (v : ℚ) (t : BrakeState), ¬ bothEnabled (brake_actuator_r_callback cfg bus v t)) ∧
    (∀ (adc : AdcSamples) (t : BrakeState),
      (brake_timer_callback cfg bus adc t).hw.Brake_L_EN = t.hw.Brake_L_EN ∧
      (brake_timer_callback cfg bus adc t).hw.Brake_R_EN = t.hw.Brake_R_EN) := by
  refine ⟨?_, ?_, ?_, ?_, ?_⟩
  · intro evs
    induction evs generalizing s with
    | nil => simpa [run] using h
    | cons ev evs ih =>
      have := ih (dispatch cfg bus ev s) (dispatch_not_bothEnabled cfg bus ev s h)
      simpa [run] using this
  · intro msg t
    unfold bothEnabled emergency_brake_callback
    cases cfg.BRAKE_INVERTED <;> simp [brake_motor_control_hw]
  · intro v t
    unfold bothEnabled brake_actuator_l_callback
    by_cases hv : v > 0 <;> simp [hv, brake_motor_control_hw]
  · intro v t
    unfold bothEnabled brake_actuator_r_callback
    by_cases hv : v > 0 <;> simp [hv, brake_motor_control_hw]
  · intro adc t
    simp [brake_timer_callback_hw]

/-- Claim C10, instance at the power-on state. -/
theorem enable_pins_never_both_set_witness :
    ¬ bothEnabled resetState ∧
    ((∀ evs : List BrakeEvent, ¬ bothEnabled (run cfgPlain busAccept evs resetState)) ∧
    (∀ (msg : Bool) (t : BrakeState),
      ¬ bothEnabled (emergency_brake_callback cfgPlain busAccept msg t)) ∧
    (∀ (v : ℚ) (t : BrakeState),
      ¬ bothEnabled (brake_actuator_l_callback cfgPlain busAccept v t)) ∧
    (∀ (v : ℚ) (t : BrakeState),
      ¬ bothEnabled (brake_actuator_r_callback cfgPlain busAccept v t)) ∧
    (∀ (adc : AdcSamples) (t : BrakeState),
      (brake_timer_callback cfgPlain busAccept adc t).hw.Brake_L_EN = t.hw.Brake_L_EN ∧
      (brake_timer_callback cfgPlain busAccept adc t).hw.Brake_R_EN = t.hw.Brake_R_EN)) :=
  ⟨by decide, enable_pins_never_both_set cfgPlain busAccept resetState (by decide)⟩

end ECU
